import Mathlib

/-!
# Atlas store builder — verification of the orchestration core

Shallow embedding of the Flask application `app.py` (progress store, the
asynchronous background orchestrator `run_automation_background`, the REST
submission endpoint `api_create_store`) and of the catalog-import service
`services/product.py` (`EbayShopifyImporter` / `ProductImporter`), together
with proofs of the behavioural properties stated in the design document.

Modelling conventions:
* JSON records become Lean structures; dict-merge updates (`entry.update(u)`)
  become a record of optional fields applied field by field.
* Exceptions become `Except String`; a stage operation that may raise is an
  oracle value of type `Except String α`.
* Python falsiness of strings is the test `s = ""`; of `None`-able values it
  is `Option`.
* Timestamps carry no information relevant to any property; we record only
  whether the `completed_at` / `failed_at` fields have been set.
* Browser `quit()` is observed as an event (a test double that records the
  close), as the design document's testable property prescribes.
-/

namespace AtlasStore

/-- One step record inside a job's `steps` list (sync path appends dicts with
a `step` name and a `status`; the async path never appends). -/
structure StepRec where
  step : String
  status : String
deriving DecidableEq, Repr

/-- Immutable job inputs, as assembled by `api_create_store` (`user_data`). -/
structure UserData where
  client_name : String
  email : String
  store_name : String
  business_type : String
  product_category : String
  product_count : Int
  country : String
deriving DecidableEq, Repr

/-- One record of the JSON progress store (`database/automation_progress.json`),
with the fields used by the async pipeline. The `has_completed_at` /
`has_failed_at` flags model presence of the timestamp fields. -/
structure Entry where
  store_id : String
  seq_id : Nat
  user_data : UserData
  status : String
  current_step : String
  message : String
  progress_percent : Nat
  steps : List StepRec
  store_url : Option String
  admin_url : Option String
  products_imported : Nat
  shopify_store_url : Option String
  shopify_store_id : Option String
  error : Option String
  has_completed_at : Bool
  has_failed_at : Bool
deriving DecidableEq, Repr

/-- A partial update, as passed to `update_entry_status(store_id, updates)`:
each `some` field is present in the Python `updates` dict and overwrites the
entry's field on merge.  Fields whose stored value is itself optional
(`admin_url`, `shopify_store_id`) carry `Option (Option String)`. -/
structure Updates where
  status : Option String := none
  current_step : Option String := none
  message : Option String := none
  progress_percent : Option Nat := none
  store_url : Option String := none
  admin_url : Option (Option String) := none
  products_imported : Option Nat := none
  shopify_store_url : Option String := none
  shopify_store_id : Option (Option String) := none
  error : Option String := none
  sets_completed_at : Bool := false
  sets_failed_at : Bool := false
deriving DecidableEq, Repr

/-- Python `entry.update(updates)`: merge the present fields into the record. -/
def applyUpdates (e : Entry) (u : Updates) : Entry :=
  { e with
    status := u.status.getD e.status
    current_step := u.current_step.getD e.current_step
    message := u.message.getD e.message
    progress_percent := u.progress_percent.getD e.progress_percent
    store_url := match u.store_url with | some s => some s | none => e.store_url
    admin_url := u.admin_url.getD e.admin_url
    products_imported := u.products_imported.getD e.products_imported
    shopify_store_url :=
      match u.shopify_store_url with | some s => some s | none => e.shopify_store_url
    shopify_store_id := u.shopify_store_id.getD e.shopify_store_id
    error := match u.error with | some s => some s | none => e.error
    has_completed_at := e.has_completed_at || u.sets_completed_at
    has_failed_at := e.has_failed_at || u.sets_failed_at }

/-- `update_entry_status` (app.py lines 58–69): walk the history, merge the
updates into the first entry whose `store_id` matches, `break`; then rewrite
the whole file.  When no entry matches, the history is written back
unchanged — a silent no-op. -/
def updateEntryStatus : List Entry → String → Updates → List Entry
  | [], _, _ => []
  | e :: rest, sid, u =>
    if e.store_id = sid then applyUpdates e u :: rest
    else e :: updateEntryStatus rest sid u

/-- Python `str.strip()` (no argument): drop whitespace from both ends.
Implemented over the character list so that it evaluates structurally. -/
def pyStrip (s : String) : String :=
  String.mk (((s.toList.dropWhile Char.isWhitespace).reverse.dropWhile
    Char.isWhitespace).reverse)

/-- Python `c in s` for a single character. -/
def hasChar (s : String) (c : Char) : Bool :=
  s.toList.contains c

/-- Python `s.lower()`, over the character list. -/
def lowerStr (s : String) : String :=
  String.mk (s.toList.map Char.toLower)

/-- `generate_store_id` (app.py lines 46–48): the first 8 characters of the
string form of a freshly drawn UUID4.  The UUID itself is an input to the
model (the randomness source). -/
def generateStoreId (uuid : String) : String :=
  String.mk (uuid.toList.take 8)

/-- The `store_data` dict returned by `ShopifyAccountCreator.create_store`
(only the fields the orchestrator reads).  An empty `store_url` models a
falsy/missing URL. -/
structure StoreData where
  store_url : String
  store_id : Option String
  admin_url : Option String
deriving DecidableEq, Repr

/-- Observable events of one background run: progress-store writes and
browser-session closes (`browser_session.quit()`), in program order. -/
inductive Event where
  | upd (u : Updates)
  | quit
deriving DecidableEq, Repr

/-- Outcomes of the four external stage operations for one run.  Each is a
black-box long-running call (design doc §2) that either returns a value or
raises (`Except.error` carries `str(e)`).  `createStore` returns the pair
`(store_data, driver)`; the dict may be `None` (falsy) and the driver is
observed only through whether a live handle was handed over. -/
structure StageOracle where
  createStore : Except String (Option StoreData × Bool)
  getToken : Except String String
  importProducts : Except String Nat
  transfer : Except String Unit

/-- Update written on entry to stage 1 (app.py lines 396–400). -/
def updStep1 : Updates :=
  { current_step := some "create_account", message := some "Creating your store...",
    progress_percent := some 10 }

/-- Update written after stage 1 succeeds (lines 414–418). -/
def updStore (sd : StoreData) : Updates :=
  { progress_percent := some 25, shopify_store_url := some sd.store_url,
    shopify_store_id := some sd.store_id }

/-- Update written on entry to stage 2 (lines 421–425). -/
def updStep2 : Updates :=
  { current_step := some "access_token", message := some "Preparing store configuration...",
    progress_percent := some 30 }

/-- Update written after stage 2 succeeds and the browser is closed (line 445). -/
def updTokenDone : Updates := { progress_percent := some 50 }

/-- Update written on entry to stage 3 (lines 448–452). -/
def updStep3 : Updates :=
  { current_step := some "import_products", message := some "Uploading products...",
    progress_percent := some 55 }

/-- Update written after stage 3 returns (lines 461–464). -/
def updImported (n : Nat) : Updates :=
  { progress_percent := some 75, products_imported := some n }

/-- Update written on entry to stage 4 (lines 467–471). -/
def updStep4 : Updates :=
  { current_step := some "transfer_ownership",
    message := some "Finalizing setup and ownership transfer...",
    progress_percent := some 85 }

/-- Terminal success update (lines 478–486). -/
def updCompleted (sd : StoreData) : Updates :=
  { status := some "completed", current_step := some "completed",
    message := some "Your store is ready!", progress_percent := some 100,
    store_url := some sd.store_url, admin_url := some sd.admin_url,
    sets_completed_at := true }

/-- Terminal failure update written by the `except` handler (lines 498–503).
It carries no `progress_percent` and no `current_step`. -/
def updFailed (err : String) : Updates :=
  { status := some "failed", message := some "Store creation failed",
    error := some err, sets_failed_at := true }

/-- The `except` handler (app.py lines 490–503): close the browser if the
local variable still holds one, then write the terminal failure update. -/
def failTail (hasBrowser : Bool) (err : String) : List Event :=
  (if hasBrowser then [Event.quit] else []) ++ [Event.upd (updFailed err)]

/-- `run_automation_background` (app.py lines 387–505) as its trace of
observable events, driven by the stage-operation outcomes `o`.  Faithful to
the source: validations of the stage-1 result, the unconditional browser
close after token extraction (setting the local to `None`), and the single
`except` handler that closes any still-held browser and writes the failure
record. -/
def runAutomationBackground (o : StageOracle) : List Event :=
  Event.upd updStep1 ::
    match o.createStore with
    | Except.error e => failTail false e
    | Except.ok (sd?, hasBrowser) =>
      match sd? with
      | none => failTail hasBrowser "Failed to create store: No store URL returned"
      | some sd =>
        if sd.store_url = "" then
          failTail hasBrowser "Failed to create store: No store URL returned"
        else
          Event.upd (updStore sd) :: Event.upd updStep2 ::
            match o.getToken with
            | Except.error e => failTail hasBrowser e
            | Except.ok tok =>
              if tok = "" then failTail hasBrowser "Failed to retrieve access token"
              else
                (if hasBrowser then [Event.quit] else []) ++
                  Event.upd updTokenDone :: Event.upd updStep3 ::
                    match o.importProducts with
                    | Except.error e => failTail false e
                    | Except.ok n =>
                      Event.upd (updImported n) :: Event.upd updStep4 ::
                        match o.transfer with
                        | Except.error e => failTail false e
                        | Except.ok _ => [Event.upd (updCompleted sd)]

/-- The initial record written by `api_create_store` before scheduling the
background task (app.py lines 574–587). -/
def initialEntry (sid : String) (seq : Nat) (ud : UserData) : Entry :=
  { store_id := sid, seq_id := seq, user_data := ud, status := "processing",
    current_step := "queued", message := "Starting store creation...",
    progress_percent := 0, steps := [], store_url := none, admin_url := none,
    products_imported := 0, shopify_store_url := none, shopify_store_id := none,
    error := none, has_completed_at := false, has_failed_at := false }

/-- Effect of one run event on the job's record (a `quit` does not touch the
store). -/
def stepEntry (e : Entry) (ev : Event) : Entry :=
  match ev with
  | Event.upd u => applyUpdates e u
  | Event.quit => e

/-- All snapshots of one job's record that a polling reader can observe over
the run: the initial record followed by the record after each event. -/
def snapshots (init : Entry) (tr : List Event) : List Entry :=
  tr.scanl stepEntry init

/-- The JSON body accepted by `POST /api/stores`.  Absent keys are `none`
(Python `data.get(...)` defaults). -/
structure ApiData where
  client_name : Option String := none
  store_name : Option String := none
  email : Option String := none
  business_type : Option String := none
  product_category : Option String := none
  product_count : Option Int := none
  country : Option String := none
deriving DecidableEq, Repr

/-- Observable outcome of one `api_create_store` call: HTTP status, the two
response fields the claims mention, the history after the call, and the task
handed to the executor (`executor.submit(run_automation_background, ...)`). -/
structure SubmitOutcome where
  httpStatus : Nat
  resp_store_id : Option String
  resp_status : Option String
  newHist : List Entry
  submitted : Option (String × UserData)
deriving DecidableEq, Repr

/-- A 4xx validation response of `api_create_store`. -/
def rejected (code : Nat) (hist : List Entry) : SubmitOutcome :=
  { httpStatus := code, resp_store_id := none, resp_status := none,
    newHist := hist, submitted := none }

/-- `api_create_store` (app.py lines 508–601).  Inputs: the parsed JSON body
(`none` models a missing/empty body), the current history, and the fresh
UUID drawn by `generate_store_id`.  Validation order, the V1 forcing of
`product_count` to 5, the sequence number `len(load_history()) + 1`, the
appended initial record and the 202 response follow the source. -/
def apiCreateStore (data? : Option ApiData) (hist : List Entry) (uuid : String) :
    SubmitOutcome :=
  match data? with
  | none => rejected 400 hist
  | some d =>
    if pyStrip (d.client_name.getD "") = "" then rejected 400 hist
    else if pyStrip (d.store_name.getD "") = "" then rejected 400 hist
    else if pyStrip (d.email.getD "") = "" then rejected 400 hist
    else if pyStrip (d.business_type.getD "") = "" then rejected 400 hist
    else
      let email := pyStrip (d.email.getD "")
      if ¬ (hasChar email '@' ∧ hasChar email '.') then rejected 400 hist
      else
        let pc0 := d.product_count.getD 5
        let pc := if pc0 ≠ 5 then 5 else pc0
        let sid := generateStoreId uuid
        let ud : UserData :=
          { client_name := pyStrip (d.client_name.getD ""), email := email,
            store_name := pyStrip (d.store_name.getD ""),
            business_type := pyStrip (d.business_type.getD ""),
            product_category := d.product_category.getD "electronics",
            product_count := pc, country := d.country.getD "US" }
        let entry := initialEntry sid (hist.length + 1) ud
        { httpStatus := 202, resp_store_id := some sid,
          resp_status := some "processing", newHist := hist ++ [entry],
          submitted := some (sid, ud) }

/-- State of the backing file `database/automation_progress.json` as seen by
one read: absent, present but not readable (`open`/`read` raises an OS
error), or present with some textual content. -/
inductive FileState where
  | absent
  | unreadable
  | content (s : String)
deriving DecidableEq, Repr

/-- `load_history` (app.py lines 26–35), with JSON decoding abstracted as the
function `decode` (`none` models `json.JSONDecodeError`).  The `try` block
catches only `json.JSONDecodeError`; an OS error raised while opening or
reading the file propagates (`Except.error`). -/
def loadHistory (decode : String → Option (List Entry)) :
    FileState → Except String (List Entry)
  | FileState.absent => Except.ok []
  | FileState.unreadable => Except.error "OSError"
  | FileState.content s =>
    match decode s with
    | some h => Except.ok h
    | none => Except.ok []

/-! ## Catalog import service (`services/product.py`) -/

/-- Python's substring test `needle in hay` on lists of characters. -/
def occursAux (needle : List Char) : List Char → Bool
  | [] => needle.isEmpty
  | c :: rest => needle.isPrefixOf (c :: rest) || occursAux needle rest

/-- Python `needle in hay` on strings. -/
def strContains (hay needle : String) : Bool :=
  occursAux needle.toList hay.toList

/-- A raw catalog item as fetched from the sourcing API, restricted to the
fields the selection pipeline reads.  `price_cents = 0` models a missing or
falsy price field; prices are modelled in integer cents (the claims depend
only on positivity, never on the float arithmetic). -/
structure RawProduct where
  title : String
  description : String
  product_type : String
  price_cents : Nat
  images : List String
deriving DecidableEq, Repr

/-- The keyword dictionary produced for a search category (`positive`,
`required`, `negative`, `expected_product_type`; `""` models `None`). -/
structure Keywords where
  positive : List String
  required : List String
  negative : List String
  expected_type : String
deriving DecidableEq, Repr

/-- The per-product test of `_filter_by_keywords` (product.py lines 605–652):
product-type gate, negative keywords over the title, at least one required
keyword in the title, at least one positive keyword in the check text
(title only in strict mode). -/
def keywordCheck (kw : Keywords) (strict : Bool) (p : RawProduct) : Bool :=
  let title := lowerStr p.title
  let check := if strict then title else title ++ " " ++ lowerStr p.description
  (if kw.expected_type ≠ "" ∧ lowerStr p.product_type ≠ "" then
      decide (lowerStr p.product_type = kw.expected_type)
    else true) &&
  kw.negative.all (fun w => ! strContains title (lowerStr w)) &&
  (if kw.required ≠ [] then kw.required.any (fun w => strContains title (lowerStr w))
    else true) &&
  (if kw.positive ≠ [] then kw.positive.any (fun w => strContains check (lowerStr w))
    else true)

/-- `_filter_by_keywords` (product.py lines 581–667): when every keyword list
is empty and no product type is expected, the input passes through
unfiltered. -/
def filterByKeywords (products : List RawProduct) (kw : Keywords) (strict : Bool) :
    List RawProduct :=
  if kw.positive = [] ∧ kw.required = [] ∧ kw.negative = [] ∧ kw.expected_type = "" then
    products
  else products.filter (keywordCheck kw strict)

/-- `_extract_price` (product.py lines 955–970) over cents: a present positive
price gets the 40% markup, otherwise the default price 19.99 is returned.
The result is always positive (the function never returns a falsy price). -/
def extractPrice (p : RawProduct) : Nat :=
  if p.price_cents > 0 then p.price_cents * 14 / 10 else 1999

/-- `_extract_images(product, scoring_mode=True)` — the DOM / HTTP extraction
internals are presentation detail excluded by the design document (§1);
observable is the item's image list. -/
def scoringImages (p : RawProduct) : List String :=
  p.images

/-- A product parsed for upload (`_parse_product`, product.py lines
1702–1741), restricted to the fields the orchestrator observes.  Title
rewriting and description generation are presentation detail (§1). -/
structure Parsed where
  title : String
  price_cents : Nat
  images : List String
deriving DecidableEq, Repr

/-- `_parse_product` (product.py lines 1702–1741): `None` when the title or
the extracted price is falsy; otherwise the upload record (an empty image
list is padded with one empty string, not rejected). -/
def parseProduct (p : RawProduct) : Option Parsed :=
  if p.title = "" then none
  else if extractPrice p = 0 then none
  else some { title := p.title, price_cents := extractPrice p,
              images := if p.images = [] then [""] else p.images }

/-- The scoring loop, ranking and truncation of `_select_best_products`
(product.py lines 690–758): keep items with truthy title, price and scoring
images, rank by the numeric score descending (the scoring constants are
incidental detail per design doc §1, abstracted as `score`), keep the best
`maxP`, and parse each survivor. -/
def selectCore (score : RawProduct → Nat) (maxP : Nat) (pool : List RawProduct) :
    List Parsed :=
  let scored := pool.filter fun p =>
    decide (p.title ≠ "") && decide (extractPrice p ≠ 0) && ! (scoringImages p).isEmpty
  let sorted := scored.mergeSort (fun a b => score b ≤ score a)
  (sorted.take maxP).filterMap parseProduct

/-- `_select_best_products` (product.py lines 669–758): with a keyword
dictionary, first filter in strict mode; an empty filtered pool returns `[]`
early (a shortfall below `max_products` keeps the filtered pool and is not
an error); then rank and truncate. -/
def selectBestProducts (score : RawProduct → Nat) (maxP : Nat)
    (products : List RawProduct) (kw : Option Keywords) : List Parsed :=
  match kw with
  | some k =>
    let filtered := filterByKeywords products k true
    if filtered = [] then [] else selectCore score maxP filtered
  | none => selectCore score maxP products

/-- `EbayShopifyImporter.__init__` (product.py lines 33–54): the requested
count is clamped into `[5, 30]` (`min(max(max_products, 5), 30)`). -/
structure EbayShopifyImporter where
  shopify_store : String
  max_products : Int
deriving DecidableEq, Repr

/-- Constructing the importer for a store and a requested count. -/
def mkImporter (store : String) (maxProducts : Int) : EbayShopifyImporter :=
  { shopify_store := store, max_products := min (max maxProducts 5) 30 }

/-- The result dict of `EbayShopifyImporter.import_products`
(product.py lines 2640–2770). -/
structure ImportResult where
  success : Bool
  uploaded : Nat
  failedCount : Nat
  products : List Parsed
deriving DecidableEq, Repr

/-- `EbayShopifyImporter.import_products` (product.py lines 2640–2770):
`load_ebay_products` (network fetch abstracted as the fetched `catalog` and
its keyword dictionary) selects the best products; an empty selection is the
operation's own error report (`success: False`, "No products found in API");
otherwise every selected product is uploaded (`upload_to_shopify`, an HTTP
call abstracted as the oracle `uploadOk`) and the uploaded ones are
returned with `success: True` — even when fewer than requested, or none,
uploaded. -/
def ebayImportProducts (imp : EbayShopifyImporter) (score : RawProduct → Nat)
    (catalog : List RawProduct) (kw : Option Keywords) (uploadOk : Parsed → Bool) :
    ImportResult :=
  let products := selectBestProducts score imp.max_products.toNat catalog kw
  if products = [] then
    { success := false, uploaded := 0, failedCount := 0, products := [] }
  else
    let uploaded := products.filter uploadOk
    { success := true, uploaded := uploaded.length,
      failedCount := products.length - uploaded.length, products := uploaded }

/-- `ProductImporter.__init__` store normalisation (product.py line 2784). -/
def normalizeStoreUrl (s : String) : String :=
  ((((s.replace "https://" "").replace "http://" "").splitOn "/").headD "")

/-- `ProductImporter.import_products` (product.py lines 2790–2814): builds an
`EbayShopifyImporter` with `max_products := count`, runs the import, and
returns the uploaded product list on `success`, `[]` otherwise — a reported
failure is swallowed into an empty list, never raised. -/
def productImporterImport (storeUrl : String) (count : Int)
    (score : RawProduct → Nat) (catalog : List RawProduct) (kw : Option Keywords)
    (uploadOk : Parsed → Bool) : List Parsed :=
  let imp := mkImporter (normalizeStoreUrl storeUrl) count
  let result := ebayImportProducts imp score catalog kw uploadOk
  if result.success then result.products else []

/-! ## Job queue / executor

`app.py` line 20 creates `ThreadPoolExecutor(max_workers=3)` and line 592
submits one `run_automation_background` task per created job.  The executor
semantics (a fixed pool of workers pulling tasks off an unbounded FIFO
queue) is modelled as a small-step scheduler: a task may start only when
fewer than `N` tasks are running and it is at the head of the queue; a
running task emits its next event or, when exhausted, finishes. -/

/-- The worker-pool bound configured in `app.py` line 20. -/
def maxWorkers : Nat := 3

/-- A submitted background task: the job's numeric tag and the events its
run will emit, in order. -/
structure Task where
  tid : Nat
  acts : List Event
deriving DecidableEq, Repr

/-- Scheduler state: the FIFO backlog, the running tasks (with their
remaining events) and the global log of emitted events. -/
structure ExecState where
  queue : List Task
  running : List Task
  log : List (Nat × Event)
deriving DecidableEq, Repr

/-- One scheduler step of the bounded executor. -/
inductive ExecStep (N : Nat) : ExecState → ExecState → Prop where
  | start (t : Task) (q r : List Task) (l : List (Nat × Event)) :
      r.length < N →
      ExecStep N ⟨t :: q, r, l⟩ ⟨q, r ++ [t], l⟩
  | emit (q pre post : List Task) (i : Nat) (a : Event) (as : List Event)
      (l : List (Nat × Event)) :
      ExecStep N ⟨q, pre ++ ⟨i, a :: as⟩ :: post, l⟩
        ⟨q, pre ++ ⟨i, as⟩ :: post, l ++ [(i, a)]⟩
  | finish (q pre post : List Task) (i : Nat) (l : List (Nat × Event)) :
      ExecStep N ⟨q, pre ++ ⟨i, []⟩ :: post, l⟩ ⟨q, pre ++ post, l⟩

/-- Reachability of scheduler states. -/
def ExecReach (N : Nat) : ExecState → ExecState → Prop :=
  Relation.ReflTransGen (ExecStep N)

/-- The scheduler state right after a batch of submissions. -/
def initExec (tasks : List Task) : ExecState :=
  { queue := tasks, running := [], log := [] }

/-! ## Shared sample data -/

/-- A sample job input. -/
def udSample : UserData :=
  { client_name := "Alice", email := "a@b.com", store_name := "Foo",
    business_type := "ecommerce", product_category := "electronics",
    product_count := 5, country := "US" }

/-- A sample stage-1 result. -/
def sdSample : StoreData :=
  { store_url := "foo.myshopify.com", store_id := some "123",
    admin_url := some "foo.myshopify.com/admin" }

/-- Stage outcomes of a run where all four stages succeed. -/
def oracleAllOk : StageOracle :=
  { createStore := Except.ok (some sdSample, true),
    getToken := Except.ok "shpat_sample", importProducts := Except.ok 5,
    transfer := Except.ok () }

/-- A sample request body for `POST /api/stores`. -/
def dSample : ApiData :=
  { client_name := some "Alice", store_name := some "Foo", email := some "a@b.com",
    business_type := some "ecommerce", product_category := some "phone case",
    product_count := some 7, country := none }

/-! ## C6 — update on an unknown job id is a silent no-op -/

/-- C6: a Progress Store update whose `store_id` matches no stored record
completes (it is a total function, mirroring that no exception is raised on
the no-match path) and leaves every stored job record unchanged — the
history is written back exactly as loaded. -/
theorem claim_C6 (hist : List Entry) (sid : String) (u : Updates)
    (h : ∀ e ∈ hist, e.store_id ≠ sid) :
    updateEntryStatus hist sid u = hist := by
  induction hist with
  | nil => rfl
  | cons e rest ih =>
    have he : e.store_id ≠ sid := h e (List.mem_cons_self e rest)
    simp only [updateEntryStatus, if_neg he]
    exact congrArg (e :: ·) (ih fun x hx => h x (List.mem_cons_of_mem e hx))

/-- Witness for C6 at a concrete history and unknown id. -/
theorem claim_C6_witness :
    updateEntryStatus [initialEntry "ab12cd34" 1 udSample] "zz99zz99"
        { status := some "failed" } =
      [initialEntry "ab12cd34" 1 udSample] :=
  claim_C6 [initialEntry "ab12cd34" 1 udSample] "zz99zz99"
    { status := some "failed" } (by decide)

/-! ## C7 — corrupt or unreadable storage -/

/-- C7 counterexample: the claim says every read of a corrupt **or
unreadable** backing file degrades to an empty store instead of raising; but
`load_history` catches only `json.JSONDecodeError`, so a read of an
unreadable file (an OS error raised by `open`/`read`) propagates the
exception instead of degrading. -/
theorem claim_C7_counterexample :
    loadHistory (fun _ => none) FileState.unreadable = Except.error "OSError" := rfl

/-- C7 as amended: a **corrupt** backing file (contents that fail JSON
decoding) degrades to an empty store on every read, as does a missing file;
only an unreadable file propagates its I/O error. -/
theorem claim_C7 (decode : String → Option (List Entry)) (s : String)
    (hcorrupt : decode s = none) :
    loadHistory decode FileState.absent = Except.ok [] ∧
    loadHistory decode (FileState.content s) = Except.ok [] := by
  refine ⟨rfl, ?_⟩
  simp [loadHistory, hcorrupt]

/-- Witness for C7 at a concrete undecodable content. -/
theorem claim_C7_witness :
    loadHistory (fun _ => none) FileState.absent = Except.ok [] ∧
    loadHistory (fun _ => none) (FileState.content "not a json document") =
      Except.ok [] :=
  claim_C7 (fun _ => none) "not a json document" rfl

/-! ## C8 — async submission: count forced to 5, 202 accepted response -/

/-- C8: for every submission through `POST /api/stores` that passes
validation, the stored job's item count is exactly 5 — whether the field was
omitted (default 5) or supplied with any other value (forced to 5 in V1) —
and the response is `store_id` plus `status = "processing"` under HTTP 202. -/
theorem claim_C8 (d : ApiData) (hist : List Entry) (uuid : String)
    (h1 : pyStrip (d.client_name.getD "") ≠ "")
    (h2 : pyStrip (d.store_name.getD "") ≠ "")
    (h3 : pyStrip (d.email.getD "") ≠ "")
    (h4 : pyStrip (d.business_type.getD "") ≠ "")
    (h5 : hasChar (pyStrip (d.email.getD "")) '@' = true)
    (h6 : hasChar (pyStrip (d.email.getD "")) '.' = true) :
    (apiCreateStore (some d) hist uuid).httpStatus = 202 ∧
    (apiCreateStore (some d) hist uuid).resp_store_id = some (generateStoreId uuid) ∧
    (apiCreateStore (some d) hist uuid).resp_status = some "processing" ∧
    ∃ e, (apiCreateStore (some d) hist uuid).newHist = hist ++ [e] ∧
      e.user_data.product_count = 5 ∧ e.status = "processing" ∧
      e.progress_percent = 0 ∧ e.steps = [] := by
  have hpc : ∀ pc0 : Int, (if pc0 ≠ 5 then (5 : Int) else pc0) = 5 := by
    intro pc0
    by_cases h : pc0 = 5 <;> simp [h]
  simp only [apiCreateStore, if_neg h1, if_neg h2, if_neg h3, if_neg h4]
  rw [if_neg (by simp [h5, h6])]
  refine ⟨rfl, rfl, rfl, _, rfl, ?_, rfl, rfl, rfl⟩
  exact hpc (d.product_count.getD 5)

/-- Witness for C8 at the sample request (which supplies `product_count = 7`;
the stored count is still 5). -/
theorem claim_C8_witness :
    (apiCreateStore (some dSample) [] "ab12cd34-0000-0000-0000-000000000000").httpStatus
        = 202 ∧
    (apiCreateStore (some dSample) [] "ab12cd34-0000-0000-0000-000000000000").resp_store_id
        = some (generateStoreId "ab12cd34-0000-0000-0000-000000000000") ∧
    (apiCreateStore (some dSample) [] "ab12cd34-0000-0000-0000-000000000000").resp_status
        = some "processing" ∧
    ∃ e, (apiCreateStore (some dSample) [] "ab12cd34-0000-0000-0000-000000000000").newHist
        = [] ++ [e] ∧
      e.user_data.product_count = 5 ∧ e.status = "processing" ∧
      e.progress_percent = 0 ∧ e.steps = [] :=
  claim_C8 dSample [] "ab12cd34-0000-0000-0000-000000000000"
    (by decide) (by decide) (by decide) (by decide) (by decide) (by decide)

/-! ## C5 — job-id uniqueness across submissions -/

/-- C5 counterexample: the job id is the first 8 characters of a fresh
UUID4, with no uniqueness check against the stored history.  Two
submissions whose drawn UUIDs share an 8-character prefix — distinct UUIDs,
both perfectly valid draws — are given the *same* job id, so ids are not
unique across all submissions ever made. -/
theorem claim_C5_counterexample :
    (apiCreateStore (some dSample) [] "ab12cd34-1111-2222-3333-444444444444").resp_store_id
      = (apiCreateStore (some dSample)
          (apiCreateStore (some dSample) [] "ab12cd34-1111-2222-3333-444444444444").newHist
          "ab12cd34-5555-6666-7777-888888888888").resp_store_id ∧
    (apiCreateStore (some dSample) [] "ab12cd34-1111-2222-3333-444444444444").resp_store_id
      ≠ none ∧
    "ab12cd34-1111-2222-3333-444444444444" ≠ "ab12cd34-5555-6666-7777-888888888888" := by
  refine ⟨rfl, ?_, ?_⟩ <;> decide

/-- Helper: whenever `api_create_store` returns a job id at all, that id is
the 8-character prefix of the drawn UUID. -/
theorem respStoreId_shape (d? : Option ApiData) (hist : List Entry) (uuid : String) :
    (apiCreateStore d? hist uuid).resp_store_id = none ∨
    (apiCreateStore d? hist uuid).resp_store_id = some (generateStoreId uuid) := by
  match d? with
  | none => exact Or.inl rfl
  | some d =>
    simp only [apiCreateStore]
    split
    · exact Or.inl rfl
    split
    · exact Or.inl rfl
    split
    · exact Or.inl rfl
    split
    · exact Or.inl rfl
    split
    · exact Or.inl rfl
    · exact Or.inr rfl

/-- C5 as amended: job ids are unique only as far as the drawn UUIDs'
8-character prefixes are: any two submissions that both return a job id
return distinct ids **iff** their UUID draws differ in the first 8
characters.  (Uniqueness is thus probabilistic, not guaranteed: nothing
checks a fresh id against previously returned ones.) -/
theorem claim_C5 (d1 d2 : Option ApiData) (h1 h2 : List Entry)
    (u1 u2 s1 s2 : String)
    (ha : (apiCreateStore d1 h1 u1).resp_store_id = some s1)
    (hb : (apiCreateStore d2 h2 u2).resp_store_id = some s2) :
    s1 ≠ s2 ↔ generateStoreId u1 ≠ generateStoreId u2 := by
  have e1 : s1 = generateStoreId u1 := by
    rcases respStoreId_shape d1 h1 u1 with h | h
    · rw [ha] at h; exact absurd h (by simp)
    · rw [ha] at h
      simpa using h
  have e2 : s2 = generateStoreId u2 := by
    rcases respStoreId_shape d2 h2 u2 with h | h
    · rw [hb] at h; exact absurd h (by simp)
    · rw [hb] at h
      simpa using h
  rw [e1, e2]

/-- Witness for C5 (amended) at two concrete accepted submissions with
distinct UUID prefixes. -/
theorem claim_C5_witness :
    ("ab12cd34" : String) ≠ "zz99ff00" ↔
      generateStoreId "ab12cd34-1111-2222-3333-444444444444" ≠
        generateStoreId "zz99ff00-1111-2222-3333-444444444444" :=
  claim_C5 (some dSample) (some dSample) [] []
    "ab12cd34-1111-2222-3333-444444444444" "zz99ff00-1111-2222-3333-444444444444"
    "ab12cd34" "zz99ff00" (by decide) (by decide)

/-! ## C10 — the importer's effective item count -/

/-- The synchronous form's product-count validation (app.py lines 140–142):
counts outside 1–50 are rejected before any stage runs. -/
def syncProductCountValid (n : Int) : Bool :=
  ! (n < 1 || n > 50)

/-- The ranking/truncation step never returns more than `maxP` products. -/
theorem length_selectCore_le (score : RawProduct → Nat) (maxP : Nat)
    (pool : List RawProduct) : (selectCore score maxP pool).length ≤ maxP := by
  unfold selectCore
  refine le_trans (List.length_filterMap_le _ _) ?_
  rw [List.length_take]
  exact min_le_left _ _

/-- Selection never returns more than `maxP` products. -/
theorem length_selectBestProducts_le (score : RawProduct → Nat) (maxP : Nat)
    (products : List RawProduct) (kw : Option Keywords) :
    (selectBestProducts score maxP products kw).length ≤ maxP := by
  unfold selectBestProducts
  match kw with
  | none => exact length_selectCore_le _ _ _
  | some k =>
    dsimp only
    split
    · exact Nat.zero_le _
    · exact length_selectCore_le _ _ _

/-- C10: the number of items the importer targets is `min(max(n, 5), 30)`,
not the requested `n`: the constructor clamp maps any count below 5 up to 5
and any count above 30 down to 30 (while the public synchronous interface
accepts 1–50), and the end-to-end wrapper never returns more than that
clamped number of imported products. -/
theorem claim_C10 :
    (∀ store : String, ∀ n : Int,
      (mkImporter store n).max_products = min (max n 5) 30) ∧
    (∀ store : String, ∀ n : Int, n < 5 →
      (mkImporter store n).max_products = 5) ∧
    (∀ store : String, ∀ n : Int, 30 < n →
      (mkImporter store n).max_products = 30) ∧
    (∀ n : Int, syncProductCountValid n = true ↔ (1 ≤ n ∧ n ≤ 50)) ∧
    (∀ (storeUrl : String) (count : Int) (score : RawProduct → Nat)
        (catalog : List RawProduct) (kw : Option Keywords) (uploadOk : Parsed → Bool),
      (productImporterImport storeUrl count score catalog kw uploadOk).length ≤
        (min (max count 5) 30).toNat) := by
  refine ⟨fun store n => rfl, ?_, ?_, ?_, ?_⟩
  · intro store n h
    simp only [mkImporter]
    omega
  · intro store n h
    simp only [mkImporter]
    omega
  · intro n
    simp only [syncProductCountValid]
    constructor
    · intro h
      simp at h
      omega
    · intro h
      simp
      omega
  · intro storeUrl count score catalog kw uploadOk
    unfold productImporterImport ebayImportProducts
    dsimp only
    split
    · simp
    · have hsel := length_selectBestProducts_le score
        ((mkImporter (normalizeStoreUrl storeUrl) count).max_products.toNat) catalog kw
      rw [if_pos rfl]
      exact le_trans (List.length_filter_le _ _) hsel

/-! ## C2 — the stage list in the async job record -/

/-- The fixed pipeline order of the four stages. -/
def pipelineStages : List String :=
  ["create_account", "access_token", "import_products", "transfer_ownership"]

/-- All snapshots of a job's record over one async run. -/
def runSnapshots (o : StageOracle) (sid : String) (seq : Nat) (ud : UserData) :
    List Entry :=
  snapshots (initialEntry sid seq ud) (runAutomationBackground o)

/-- No run event ever touches the `steps` list: `update_entry_status` is
called with dicts that never contain a `steps` key. -/
theorem steps_stepEntry (e : Entry) (ev : Event) : (stepEntry e ev).steps = e.steps := by
  cases ev <;> rfl

/-- Every snapshot of a run keeps the initial record's `steps` list. -/
theorem steps_mem_snapshots :
    ∀ (tr : List Event) (init : Entry) (e : Entry), e ∈ snapshots init tr →
      e.steps = init.steps := by
  intro tr
  induction tr with
  | nil =>
    intro init e he
    simp [snapshots, List.scanl] at he
    rw [he]
  | cons ev tr ih =>
    intro init e he
    simp only [snapshots, List.scanl, List.mem_cons] at he
    rcases he with he | he
    · rw [he]
    · rw [ih (stepEntry init ev) e he, steps_stepEntry]

/-- C2 as amended: over the whole lifetime of an async job, the stage list
recorded in its Progress Store record is a prefix of the fixed pipeline
sequence only vacuously — it stays empty from submission to the terminal
state, because `run_automation_background` records progression solely in
`current_step` and never appends a stage record; consequently the list does
**not** equal the full four-stage sequence when the job completes. -/
theorem claim_C2 (o : StageOracle) (sid : String) (seq : Nat) (ud : UserData)
    (e : Entry) (he : e ∈ runSnapshots o sid seq ud) :
    e.steps = [] ∧ (e.steps.map StepRec.step).isPrefixOf pipelineStages = true := by
  have h : e.steps = (initialEntry sid seq ud).steps := steps_mem_snapshots _ _ _ he
  refine ⟨h, ?_⟩
  rw [h]
  rfl

/-- Witness for C2 (amended) at the first snapshot of a concrete run. -/
theorem claim_C2_witness :
    (initialEntry "ab12cd34" 1 udSample).steps = [] ∧
    ((initialEntry "ab12cd34" 1 udSample).steps.map StepRec.step).isPrefixOf
      pipelineStages = true :=
  claim_C2 oracleAllOk "ab12cd34" 1 udSample (initialEntry "ab12cd34" 1 udSample)
    (by decide)

/-- C2 counterexample: in a run where all four stages succeed, the terminal
record has status `completed` while its stage list is still empty — so "the
stage list equals the full four-stage sequence iff the status is completed"
is false on the code. -/
theorem claim_C2_counterexample :
    ¬ ((((runSnapshots oracleAllOk "ab12cd34" 1 udSample).getLastD
          (initialEntry "ab12cd34" 1 udSample)).steps.map StepRec.step
            = pipelineStages) ↔
        ((runSnapshots oracleAllOk "ab12cd34" 1 udSample).getLastD
          (initialEntry "ab12cd34" 1 udSample)).status = "completed") := by
  decide

/-! ## C1 — the browser session is closed exactly once, by end of stage 2 -/

/-- Number of browser-close (`quit`) calls recorded in a run trace. -/
def countQuits : List Event → Nat
  | [] => 0
  | Event.quit :: r => countQuits r + 1
  | Event.upd _ :: r => countQuits r

/-- Helper: none of the three store writes that precede the browser close
enters the catalog-import stage. -/
theorem pre3_no_stage3 (sd : StoreData) :
    ∀ u, Event.upd u ∈
        [Event.upd updStep1, Event.upd (updStore sd), Event.upd updStep2] →
      u.current_step ≠ some "import_products" := by
  intro u hu
  simp only [List.mem_cons, List.not_mem_nil, or_false, Event.upd.injEq] at hu
  rcases hu with h | h | h <;> subst h <;> simp [updStep1, updStore, updStep2]

/-- C1: whenever stage 1 succeeds — `create_store` returns a record with a
non-empty store URL together with a live browser handle — the run closes
that handle exactly once, and the unique `quit` happens strictly before any
store write that enters the catalog-import stage (hence no later than the
end of stage 2).  This covers stage-2 success, stage-2 failure (an exception
from `get_token` or an empty token), and any later-stage failure. -/
theorem claim_C1 (o : StageOracle) (sd : StoreData)
    (hcreate : o.createStore = Except.ok (some sd, true))
    (hurl : sd.store_url ≠ "") :
    countQuits (runAutomationBackground o) = 1 ∧
    ∃ pre post, runAutomationBackground o = pre ++ Event.quit :: post ∧
      countQuits pre = 0 ∧ countQuits post = 0 ∧
      ∀ u, Event.upd u ∈ pre → u.current_step ≠ some "import_products" := by
  obtain ⟨cs, gt, ip, tr⟩ := o
  simp only at hcreate
  subst hcreate
  simp only [runAutomationBackground, if_neg hurl]
  rcases gt with e | tok
  · refine ⟨by simp [countQuits, failTail],
      [Event.upd updStep1, Event.upd (updStore sd), Event.upd updStep2],
      [Event.upd (updFailed e)], by simp [failTail], rfl, rfl, pre3_no_stage3 sd⟩
  by_cases ht : tok = ""
  · refine ⟨by simp [countQuits, failTail, ht],
      [Event.upd updStep1, Event.upd (updStore sd), Event.upd updStep2],
      [Event.upd (updFailed "Failed to retrieve access token")],
      by simp [failTail, ht], rfl, rfl, pre3_no_stage3 sd⟩
  rcases ip with e | n
  · refine ⟨by simp [countQuits, failTail, ht],
      [Event.upd updStep1, Event.upd (updStore sd), Event.upd updStep2],
      [Event.upd updTokenDone, Event.upd updStep3, Event.upd (updFailed e)],
      by simp [failTail, ht], rfl, rfl, pre3_no_stage3 sd⟩
  rcases tr with e | u
  · refine ⟨by simp [countQuits, failTail, ht],
      [Event.upd updStep1, Event.upd (updStore sd), Event.upd updStep2],
      [Event.upd updTokenDone, Event.upd updStep3, Event.upd (updImported n),
        Event.upd updStep4, Event.upd (updFailed e)],
      by simp [failTail, ht], rfl, rfl, pre3_no_stage3 sd⟩
  · refine ⟨by simp [countQuits, failTail, ht],
      [Event.upd updStep1, Event.upd (updStore sd), Event.upd updStep2],
      [Event.upd updTokenDone, Event.upd updStep3, Event.upd (updImported n),
        Event.upd updStep4, Event.upd (updCompleted sd)],
      by simp [failTail, ht], rfl, rfl, pre3_no_stage3 sd⟩

/-- Witness for C1 on a concrete run where stage 1 succeeds and stage 2
raises: the handle is still closed exactly once, before any stage-3 write. -/
theorem claim_C1_witness :
    countQuits (runAutomationBackground
      { createStore := Except.ok (some sdSample, true),
        getToken := Except.error "TimeoutException", importProducts := Except.ok 5,
        transfer := Except.ok () }) = 1 ∧
    ∃ pre post, runAutomationBackground
        { createStore := Except.ok (some sdSample, true),
          getToken := Except.error "TimeoutException", importProducts := Except.ok 5,
          transfer := Except.ok () } = pre ++ Event.quit :: post ∧
      countQuits pre = 0 ∧ countQuits post = 0 ∧
      ∀ u, Event.upd u ∈ pre → u.current_step ≠ some "import_products" :=
  claim_C1
    { createStore := Except.ok (some sdSample, true),
      getToken := Except.error "TimeoutException", importProducts := Except.ok 5,
      transfer := Except.ok () } sdSample rfl (by decide)

/-! ## C3 — completion percentage is monotone, 0 at start, 100 only when
completed -/

/-- C3: over any async run, the sequence of `progress_percent` values a
polling reader can observe is monotonically non-decreasing, starts at 0,
and a snapshot shows 100 only when its status is `completed` (failures keep
the last pre-failure percent, at most 85). -/
theorem claim_C3 (o : StageOracle) (sid : String) (seq : Nat) (ud : UserData) :
    ((runSnapshots o sid seq ud).map Entry.progress_percent).Chain' (· ≤ ·) ∧
    ((runSnapshots o sid seq ud).map Entry.progress_percent).head? = some 0 ∧
    ∀ e ∈ runSnapshots o sid seq ud, e.progress_percent = 100 →
      e.status = "completed" := by
  obtain ⟨cs, gt, ip, tr⟩ := o
  rcases cs with ce | ⟨sd?, hb⟩ <;>
    try rcases sd? with _ | sd
  all_goals try by_cases hurl : sd.store_url = ""
  all_goals rcases gt with ge | tok
  all_goals try by_cases ht : tok = ""
  all_goals rcases ip with ie | n
  all_goals rcases tr with te | u
  all_goals try cases hb
  all_goals refine ⟨by simp [runSnapshots, snapshots, List.scanl, stepEntry,
    applyUpdates, initialEntry, updStep1, updStore, updStep2, updTokenDone,
    updStep3, updImported, updStep4, updCompleted, updFailed, failTail,
    List.chain'_cons, *],
    by simp [runSnapshots, snapshots, List.scanl, stepEntry, applyUpdates,
      initialEntry, updStep1, updStore, updStep2, updTokenDone, updStep3,
      updImported, updStep4, updCompleted, updFailed, failTail, *], ?_⟩
  all_goals intro e he
  all_goals simp only [runSnapshots, snapshots, List.scanl, stepEntry,
    applyUpdates, initialEntry, updStep1, updStore, updStep2, updTokenDone,
    updStep3, updImported, updStep4, updCompleted, updFailed, failTail,
    Option.getD, if_pos, if_neg, *] at he
  all_goals fin_cases he <;> simp_all

/-- Witness for C3 at a concrete all-success run: the terminal snapshot is
at percent 100 and the theorem's membership and percent hypotheses are
discharged there concretely. -/
theorem claim_C3_witness :
    ((runSnapshots oracleAllOk "ab12cd34" 1 udSample).getLastD
      (initialEntry "ab12cd34" 1 udSample)).status = "completed" :=
  (claim_C3 oracleAllOk "ab12cd34" 1 udSample).2.2
    ((runSnapshots oracleAllOk "ab12cd34" 1 udSample).getLastD
      (initialEntry "ab12cd34" 1 udSample))
    (by decide) (by decide)

/-- Witness for C10 at concrete requested counts 1, 50 and 3. -/
theorem claim_C10_witness :
    (mkImporter "foo.myshopify.com" (1 : Int)).max_products = 5 ∧
    (mkImporter "foo.myshopify.com" (50 : Int)).max_products = 30 ∧
    (syncProductCountValid 3 = true ↔ (1 ≤ (3 : Int) ∧ (3 : Int) ≤ 50)) :=
  ⟨claim_C10.2.1 "foo.myshopify.com" 1 (by decide),
   claim_C10.2.2.1 "foo.myshopify.com" 50 (by decide),
   claim_C10.2.2.2.1 3⟩

/-! ## C4 — partial catalog matches still complete the job -/

/-- The extracted price is never falsy: a present positive price gets a
positive markup and an absent one gets the positive default. -/
theorem extractPrice_ne_zero (p : RawProduct) : extractPrice p ≠ 0 := by
  unfold extractPrice
  split <;> omega

/-- `filterMap` keeps the length when the function succeeds on every
element. -/
theorem length_filterMap_eq_of_all_some {α β : Type _} (f : α → Option β) :
    ∀ l : List α, (∀ a ∈ l, (f a).isSome) → (l.filterMap f).length = l.length := by
  intro l
  induction l with
  | nil => simp
  | cons a l ih =>
    intro h
    have ha := h a (List.mem_cons_self a l)
    rw [List.filterMap_cons]
    match hfa : f a with
    | none => rw [hfa] at ha; simp at ha
    | some b =>
      simp only [List.length_cons]
      rw [ih fun x hx => h x (List.mem_cons_of_mem a hx)]

/-- When every pool item has a truthy title and images and the pool is not
larger than the requested cut-off, ranking and truncation keep the whole
pool: fewer matching items than requested is a partial result, not a
failure. -/
theorem length_selectCore_eq (score : RawProduct → Nat) (maxP : Nat)
    (pool : List RawProduct)
    (hviab : ∀ p ∈ pool, p.title ≠ "" ∧ scoringImages p ≠ [])
    (hlen : pool.length ≤ maxP) :
    (selectCore score maxP pool).length = pool.length := by
  unfold selectCore
  have hfil : pool.filter (fun p =>
      decide (p.title ≠ "") && decide (extractPrice p ≠ 0) &&
        ! (scoringImages p).isEmpty) = pool := by
    rw [List.filter_eq_self]
    intro a ha
    obtain ⟨h1, h2⟩ := hviab a ha
    simp [h1, h2, extractPrice_ne_zero a, List.isEmpty_iff]
  rw [hfil]
  dsimp only
  have hsl : (pool.mergeSort fun a b => decide (score b ≤ score a)).length = pool.length :=
    List.length_mergeSort pool
  rw [List.take_of_length_le (le_of_eq_of_le hsl hlen)]
  rw [length_filterMap_eq_of_all_some]
  · exact hsl
  · intro a ha
    have hmem : a ∈ pool :=
      (List.mergeSort_perm pool fun a b => decide (score b ≤ score a)).subset ha
    obtain ⟨h1, _⟩ := hviab a hmem
    simp [parseProduct, h1, extractPrice_ne_zero a]

/-- Keyword set for the category used in the C4 scenario. -/
def kwPhone : Keywords :=
  { positive := ["case"], required := [], negative := ["broken"], expected_type := "" }

/-- A matching catalog item. -/
def pMatch1 : RawProduct :=
  { title := "Phone Case Red", description := "", product_type := "",
    price_cents := 1000, images := ["img1"] }

/-- A second matching catalog item. -/
def pMatch2 : RawProduct :=
  { title := "Phone Case Blue", description := "", product_type := "",
    price_cents := 2000, images := ["img2"] }

/-- A non-matching catalog item. -/
def pOther1 : RawProduct :=
  { title := "Laptop Stand", description := "", product_type := "",
    price_cents := 3000, images := ["img3"] }

/-- Another non-matching catalog item. -/
def pOther2 : RawProduct :=
  { title := "USB Cable", description := "", product_type := "",
    price_cents := 400, images := ["img4"] }

/-- A fetched catalog in which exactly 2 items match the requested
category. -/
def catalogSample : List RawProduct := [pMatch1, pOther1, pMatch2, pOther2]

/-- With a requested count of 5 and only 2 matching catalog items, the whole
importing wrapper returns exactly the 2 matches (for every scoring
function). -/
theorem importLength_two (score : RawProduct → Nat) :
    (productImporterImport "foo.myshopify.com" 5 score catalogSample (some kwPhone)
      (fun _ => true)).length = 2 := by
  have hmp : (mkImporter (normalizeStoreUrl "foo.myshopify.com") 5).max_products.toNat
      = 5 := by decide
  have hfil : filterByKeywords catalogSample kwPhone true = [pMatch1, pMatch2] := by
    decide
  have hcore : (selectCore score 5 [pMatch1, pMatch2]).length = 2 := by
    rw [length_selectCore_eq score 5 [pMatch1, pMatch2] (by decide) (by decide)]
    rfl
  simp only [productImporterImport, ebayImportProducts, selectBestProducts]
  rw [hmp, hfil]
  rw [if_neg (by decide : ¬ ([pMatch1, pMatch2] : List RawProduct) = [])]
  have hne : selectCore score 5 [pMatch1, pMatch2] ≠ [] := by
    intro h
    rw [h] at hcore
    simp at hcore
  rw [if_neg hne, if_pos rfl, List.filter_true]
  exact hcore

/-- The terminal record of one async run. -/
def runFinal (o : StageOracle) (sid : String) (seq : Nat) (ud : UserData) : Entry :=
  (runSnapshots o sid seq ud).getLastD (initialEntry sid seq ud)

/-- On any run whose four stages all succeed (valid store data, live
handle, non-empty token), the terminal record is `completed` at percent 100
with the imported count recorded. -/
theorem runFinal_success (o : StageOracle) (sd : StoreData) (tok : String) (n : Nat)
    (sid : String) (seq : Nat) (ud : UserData)
    (hc : o.createStore = Except.ok (some sd, true))
    (hurl : sd.store_url ≠ "")
    (hg : o.getToken = Except.ok tok) (ht : tok ≠ "")
    (hi : o.importProducts = Except.ok n) (htr : o.transfer = Except.ok ()) :
    (runFinal o sid seq ud).status = "completed" ∧
    (runFinal o sid seq ud).products_imported = n ∧
    (runFinal o sid seq ud).progress_percent = 100 := by
  obtain ⟨cs, gt, ip, tr⟩ := o
  simp only at hc hg hi htr
  subst hc
  subst hg
  subst hi
  subst htr
  refine ⟨?_, ?_, ?_⟩ <;>
    simp [runFinal, runSnapshots, snapshots, List.scanl, stepEntry, applyUpdates,
      initialEntry, updStep1, updStore, updStep2, updTokenDone, updStep3,
      updImported, updStep4, updCompleted, failTail, if_neg hurl, if_neg ht,
      List.getLastD]

/-- C4: a catalog-import stage that finds fewer matching items than
requested still completes the job with the actual count recorded — with
requested count 5 and only 2 matching catalog items the job ends
`completed` with `products_imported = 2` — and a zero-count import result
that is not an error likewise completes the job with count 0. -/
theorem claim_C4 :
    (∀ (score : RawProduct → Nat) (o : StageOracle) (sid : String) (seq : Nat)
        (ud : UserData),
      o.createStore = Except.ok (some sdSample, true) →
      o.getToken = Except.ok "shpat_sample" →
      o.importProducts = Except.ok (productImporterImport "foo.myshopify.com" 5
        score catalogSample (some kwPhone) (fun _ => true)).length →
      o.transfer = Except.ok () →
      (runFinal o sid seq ud).status = "completed" ∧
      (runFinal o sid seq ud).products_imported = 2) ∧
    (∀ (o : StageOracle) (sd : StoreData) (tok : String) (sid : String)
        (seq : Nat) (ud : UserData),
      o.createStore = Except.ok (some sd, true) → sd.store_url ≠ "" →
      o.getToken = Except.ok tok → tok ≠ "" →
      o.importProducts = Except.ok 0 → o.transfer = Except.ok () →
      (runFinal o sid seq ud).status = "completed" ∧
      (runFinal o sid seq ud).products_imported = 0) := by
  constructor
  · intro score o sid seq ud hc hg hi htr
    have h := runFinal_success o sdSample "shpat_sample"
      (productImporterImport "foo.myshopify.com" 5 score catalogSample
        (some kwPhone) (fun _ => true)).length sid seq ud hc (by decide) hg
      (by decide) hi htr
    exact ⟨h.1, h.2.1.trans (importLength_two score)⟩
  · intro o sd tok sid seq ud hc hurl hg ht hi htr
    have h := runFinal_success o sd tok 0 sid seq ud hc hurl hg ht hi htr
    exact ⟨h.1, h.2.1⟩

/-- Witness for C4 at a concrete oracle built from the concrete catalog
with 2 matches and a constant scoring function. -/
theorem claim_C4_witness :
    (runFinal
      { createStore := Except.ok (some sdSample, true),
        getToken := Except.ok "shpat_sample",
        importProducts := Except.ok (productImporterImport "foo.myshopify.com" 5
          (fun _ => 0) catalogSample (some kwPhone) (fun _ => true)).length,
        transfer := Except.ok () } "ab12cd34" 1 udSample).status = "completed" ∧
    (runFinal
      { createStore := Except.ok (some sdSample, true),
        getToken := Except.ok "shpat_sample",
        importProducts := Except.ok (productImporterImport "foo.myshopify.com" 5
          (fun _ => 0) catalogSample (some kwPhone) (fun _ => true)).length,
        transfer := Except.ok () } "ab12cd34" 1 udSample).products_imported = 2 :=
  claim_C4.1 (fun _ => 0) _ "ab12cd34" 1 udSample rfl rfl rfl rfl

/-! ## C9 — bounded concurrency, FIFO queueing, serialization at limit 1 -/

/-- One scheduler step never pushes the number of running tasks above the
bound. -/
theorem running_bound_step (N : Nat) {s1 s2 : ExecState} (h : ExecStep N s1 s2)
    (hb : s1.running.length ≤ N) : s2.running.length ≤ N := by
  cases h with
  | start t q r l hlt =>
    simp only [List.length_append, List.length_cons, List.length_nil] at hlt ⊢
    omega
  | emit q pre post i a as l =>
    simp only [List.length_append, List.length_cons] at hb ⊢
    omega
  | finish q pre post i l =>
    simp only [List.length_append, List.length_cons] at hb ⊢
    omega

/-- In every state reachable from a fresh batch of submissions, at most `N`
tasks are running. -/
theorem running_le_of_reach (N : Nat) (tasks : List Task) (s : ExecState)
    (h : ExecReach N (initExec tasks) s) : s.running.length ≤ N := by
  induction h with
  | refl => simp [initExec]
  | tail hab hstep ih =>
    exact running_bound_step N hstep ih

/-- The backlog only ever loses its head to a starting worker: every
reachable queue is a suffix of the submission list, so tasks start in FIFO
submission order and none is ever rejected. -/
theorem queue_suffix_of_reach (N : Nat) (tasks : List Task) (s : ExecState)
    (h : ExecReach N (initExec tasks) s) : ∃ pre, pre ++ s.queue = tasks := by
  induction h with
  | refl => exact ⟨[], rfl⟩
  | tail hab hstep ih =>
    obtain ⟨pre, hpre⟩ := ih
    cases hstep with
    | start t q r l hlt =>
      refine ⟨pre ++ [t], ?_⟩
      rw [List.append_assoc]
      simpa using hpre
    | emit q pre2 post i a as l => exact ⟨pre, hpre⟩
    | finish q pre2 post i l => exact ⟨pre, hpre⟩

/-- Decomposing `pre ++ x :: post = [y]`. -/
theorem append_cons_eq_singleton {α : Type _} {pre post : List α} {x y : α}
    (h : pre ++ x :: post = [y]) : pre = [] ∧ x = y ∧ post = [] := by
  cases pre with
  | nil =>
    simp only [List.nil_append, List.cons.injEq] at h
    exact ⟨rfl, h.1, h.2⟩
  | cons p ps => simp at h

/-- Unfolding one element off a `drop`. -/
theorem take_drop_cons {α : Type _} :
    ∀ (l : List α) (k : Nat) (a : α) (as : List α), l.drop k = a :: as →
      l.take (k + 1) = l.take k ++ [a] ∧ l.drop (k + 1) = as ∧ k < l.length := by
  intro l
  induction l with
  | nil => intro k a as h; simp at h
  | cons x xs ih =>
    intro k a as h
    cases k with
    | zero =>
      simp only [List.drop_zero] at h
      cases h
      simp
    | succ k =>
      simp only [List.drop_succ_cons] at h
      obtain ⟨h1, h2, h3⟩ := ih k a as h
      refine ⟨?_, ?_, ?_⟩
      · simp only [List.take_succ_cons, h1, List.cons_append]
      · simpa using h2
      · simpa using h3

/-- Phase invariant of the capacity-1 scheduler over two submitted jobs:
job 1 runs (and fully logs) before job 2 emits anything. -/
def TwoJobInv (as1 as2 : List Event) (s : ExecState) : Prop :=
  (s.queue = [⟨1, as1⟩, ⟨2, as2⟩] ∧ s.running = [] ∧ s.log = []) ∨
  (∃ k, k ≤ as1.length ∧ s.queue = [⟨2, as2⟩] ∧ s.running = [⟨1, as1.drop k⟩] ∧
    s.log = (as1.take k).map fun a => (1, a)) ∨
  (s.queue = [⟨2, as2⟩] ∧ s.running = [] ∧ s.log = as1.map fun a => (1, a)) ∨
  (∃ m, m ≤ as2.length ∧ s.queue = [] ∧ s.running = [⟨2, as2.drop m⟩] ∧
    s.log = ((as1.map fun a => (1, a)) ++ ((as2.take m).map fun a => (2, a)))) ∨
  (s.queue = [] ∧ s.running = [] ∧
    s.log = ((as1.map fun a => (1, a)) ++ (as2.map fun a => (2, a))))

/-- The phase invariant is preserved by every step of the capacity-1
scheduler. -/
theorem twoJobInv_step (as1 as2 : List Event) {s1 s2 : ExecState}
    (hstep : ExecStep 1 s1 s2) (hinv : TwoJobInv as1 as2 s1) :
    TwoJobInv as1 as2 s2 := by
  cases hstep with
  | start t q r l hlt =>
    rcases hinv with ⟨hq, hr, hl⟩ | ⟨k, hk, hq, hr, hl⟩ | ⟨hq, hr, hl⟩ |
        ⟨m, hm, hq, hr, hl⟩ | ⟨hq, hr, hl⟩ <;>
      dsimp only at hq hr hl
    · simp only [List.cons.injEq] at hq
      obtain ⟨ht, hq2⟩ := hq
      subst ht
      subst hq2
      subst hr
      subst hl
      exact Or.inr (Or.inl ⟨0, Nat.zero_le _, rfl, by simp, by simp⟩)
    · rw [hr] at hlt
      simp at hlt
    · simp only [List.cons.injEq] at hq
      obtain ⟨ht, hq2⟩ := hq
      subst ht
      subst hq2
      subst hr
      subst hl
      exact Or.inr (Or.inr (Or.inr (Or.inl ⟨0, Nat.zero_le _, rfl, by simp, by simp⟩)))
    · simp at hq
    · simp at hq
  | emit q pre post i a as l =>
    rcases hinv with ⟨hq, hr, hl⟩ | ⟨k, hk, hq, hr, hl⟩ | ⟨hq, hr, hl⟩ |
        ⟨m, hm, hq, hr, hl⟩ | ⟨hq, hr, hl⟩ <;>
      dsimp only at hq hr hl
    · simp at hr
    · obtain ⟨hpre, hx, hpost⟩ := append_cons_eq_singleton hr
      subst hpre
      subst hpost
      have hi : i = 1 := congrArg Task.tid hx
      have hacts : as1.drop k = a :: as := (congrArg Task.acts hx).symm
      obtain ⟨htake, hdrop, hklt⟩ := take_drop_cons as1 k a as hacts
      subst hi
      refine Or.inr (Or.inl ⟨k + 1, hklt, hq, ?_, ?_⟩)
      · dsimp only
        rw [hdrop]
        simp
      · dsimp only
        rw [hl, htake]
        simp
    · simp at hr
    · obtain ⟨hpre, hx, hpost⟩ := append_cons_eq_singleton hr
      subst hpre
      subst hpost
      have hi : i = 2 := congrArg Task.tid hx
      have hacts : as2.drop m = a :: as := (congrArg Task.acts hx).symm
      obtain ⟨htake, hdrop, hmlt⟩ := take_drop_cons as2 m a as hacts
      subst hi
      refine Or.inr (Or.inr (Or.inr (Or.inl ⟨m + 1, hmlt, hq, ?_, ?_⟩)))
      · dsimp only
        rw [hdrop]
        simp
      · dsimp only
        rw [hl, htake]
        simp
    · simp at hr
  | finish q pre post i l =>
    rcases hinv with ⟨hq, hr, hl⟩ | ⟨k, hk, hq, hr, hl⟩ | ⟨hq, hr, hl⟩ |
        ⟨m, hm, hq, hr, hl⟩ | ⟨hq, hr, hl⟩ <;>
      dsimp only at hq hr hl
    · simp at hr
    · obtain ⟨hpre, hx, hpost⟩ := append_cons_eq_singleton hr
      subst hpre
      subst hpost
      have hacts : as1.drop k = [] := (congrArg Task.acts hx).symm
      have hkeq : k = as1.length := by
        have := List.drop_eq_nil_iff.mp hacts
        omega
      subst hkeq
      refine Or.inr (Or.inr (Or.inl ⟨hq, by simp, ?_⟩))
      dsimp only
      rw [hl, List.take_length]
    · simp at hr
    · obtain ⟨hpre, hx, hpost⟩ := append_cons_eq_singleton hr
      subst hpre
      subst hpost
      have hacts : as2.drop m = [] := (congrArg Task.acts hx).symm
      have hmeq : m = as2.length := by
        have := List.drop_eq_nil_iff.mp hacts
        omega
      subst hmeq
      refine Or.inr (Or.inr (Or.inr (Or.inr ⟨hq, by simp, ?_⟩)))
      dsimp only
      rw [hl, List.take_length]
    · simp at hr

/-- Every state of the capacity-1 scheduler reachable from two fresh
submissions satisfies the phase invariant. -/
theorem twoJobInv_of_reach (as1 as2 : List Event) (s : ExecState)
    (h : ExecReach 1 (initExec [⟨1, as1⟩, ⟨2, as2⟩]) s) : TwoJobInv as1 as2 s := by
  induction h with
  | refl => exact Or.inl ⟨rfl, rfl, rfl⟩
  | tail hab hstep ih => exact twoJobInv_step as1 as2 hstep ih

/-- Filtering job-1 entries out of job-1's own log segment keeps it all. -/
theorem filter_fst_one_map_one (l : List Event) :
    ((l.map fun a => ((1 : Nat), a)).filter fun p => p.1 == 1) =
      l.map fun a => ((1 : Nat), a) := by
  induction l with
  | nil => rfl
  | cons a l ih => simp [ih]

/-- Filtering job-1 entries out of a job-2 log segment leaves nothing. -/
theorem filter_fst_one_map_two (l : List Event) :
    ((l.map fun a => ((2 : Nat), a)).filter fun p => p.1 == 1) = [] := by
  induction l with
  | nil => rfl
  | cons a l ih => simp [ih]

/-- Every async run ends by writing a terminal status: its last event is a
store update carrying status `completed` or `failed` — so when a capacity-1
executor finishes a task, that job has reached a terminal state. -/
theorem run_last_terminal (o : StageOracle) :
    ∃ pre u, runAutomationBackground o = pre ++ [Event.upd u] ∧
      (u.status = some "completed" ∨ u.status = some "failed") := by
  obtain ⟨cs, gt, ip, tr⟩ := o
  rcases cs with ce | ⟨sd?, hb⟩
  · exact ⟨[Event.upd updStep1], updFailed ce,
      by simp [runAutomationBackground, failTail], Or.inr rfl⟩
  rcases sd? with _ | sd
  · exact ⟨Event.upd updStep1 :: (if hb then [Event.quit] else []),
      updFailed "Failed to create store: No store URL returned",
      by simp [runAutomationBackground, failTail], Or.inr rfl⟩
  by_cases hurl : sd.store_url = ""
  · exact ⟨Event.upd updStep1 :: (if hb then [Event.quit] else []),
      updFailed "Failed to create store: No store URL returned",
      by simp [runAutomationBackground, failTail, hurl], Or.inr rfl⟩
  rcases gt with ge | tok
  · exact ⟨Event.upd updStep1 :: Event.upd (updStore sd) :: Event.upd updStep2 ::
        (if hb then [Event.quit] else []), updFailed ge,
      by simp [runAutomationBackground, failTail, hurl], Or.inr rfl⟩
  by_cases ht : tok = ""
  · exact ⟨Event.upd updStep1 :: Event.upd (updStore sd) :: Event.upd updStep2 ::
        (if hb then [Event.quit] else []), updFailed "Failed to retrieve access token",
      by simp [runAutomationBackground, failTail, hurl, ht], Or.inr rfl⟩
  rcases ip with ie | n
  · exact ⟨Event.upd updStep1 :: Event.upd (updStore sd) :: Event.upd updStep2 ::
        ((if hb then [Event.quit] else []) ++
          [Event.upd updTokenDone, Event.upd updStep3]), updFailed ie,
      by simp [runAutomationBackground, failTail, hurl, ht], Or.inr rfl⟩
  rcases tr with te | uu
  · exact ⟨Event.upd updStep1 :: Event.upd (updStore sd) :: Event.upd updStep2 ::
        ((if hb then [Event.quit] else []) ++
          [Event.upd updTokenDone, Event.upd updStep3, Event.upd (updImported n),
            Event.upd updStep4]), updFailed te,
      by simp [runAutomationBackground, failTail, hurl, ht], Or.inr rfl⟩
  · exact ⟨Event.upd updStep1 :: Event.upd (updStore sd) :: Event.upd updStep2 ::
        ((if hb then [Event.quit] else []) ++
          [Event.upd updTokenDone, Event.upd updStep3, Event.upd (updImported n),
            Event.upd updStep4]), updCompleted sd,
      by simp [runAutomationBackground, failTail, hurl, ht], Or.inl rfl⟩

/-- C9: (i) with the configured pool bound (3) at most that many
orchestrations ever run concurrently; (ii) for any bound, the backlog is
always a suffix of the submission list — waiting jobs keep FIFO submission
order and are never rejected; (iii) at bound 1, no event of the second job
(in particular its first, `CreatingStore`-entry write) appears in the log
until the first job's events are all logged; and (iv) each job's last event
is its terminal-status write, so "all events logged" means the first job
reached a terminal state. -/
theorem claim_C9 :
    (∀ (tasks : List Task) (s : ExecState),
      ExecReach maxWorkers (initExec tasks) s → s.running.length ≤ maxWorkers) ∧
    (∀ (N : Nat) (tasks : List Task) (s : ExecState),
      ExecReach N (initExec tasks) s → ∃ pre, pre ++ s.queue = tasks) ∧
    (∀ (as1 as2 : List Event) (s : ExecState),
      ExecReach 1 (initExec [⟨1, as1⟩, ⟨2, as2⟩]) s →
      ∀ e : Event, ((2 : Nat), e) ∈ s.log →
        (s.log.filter fun p => p.1 == 1) = as1.map fun a => ((1 : Nat), a)) ∧
    (∀ o : StageOracle, ∃ pre u,
      runAutomationBackground o = pre ++ [Event.upd u] ∧
      (u.status = some "completed" ∨ u.status = some "failed")) := by
  refine ⟨fun tasks s h => running_le_of_reach maxWorkers tasks s h,
    fun N tasks s h => queue_suffix_of_reach N tasks s h, ?_, run_last_terminal⟩
  intro as1 as2 s h e he
  have hinv := twoJobInv_of_reach as1 as2 s h
  rcases hinv with ⟨hq, hr, hl⟩ | ⟨k, hk, hq, hr, hl⟩ | ⟨hq, hr, hl⟩ |
      ⟨m, hm, hq, hr, hl⟩ | ⟨hq, hr, hl⟩
  · rw [hl] at he
    simp at he
  · rw [hl, List.mem_map] at he
    obtain ⟨a, ha, hpa⟩ := he
    simp at hpa
  · rw [hl, List.mem_map] at he
    obtain ⟨a, ha, hpa⟩ := he
    simp at hpa
  · rw [hl, List.filter_append, filter_fst_one_map_one, filter_fst_one_map_two,
      List.append_nil]
  · rw [hl, List.filter_append, filter_fst_one_map_one, filter_fst_one_map_two,
      List.append_nil]

/-- Witness for C9: the bound and suffix parts at the initial states, the
serialization part at a concrete 4-step schedule of two jobs under bound 1,
and the terminal-last-event part at a concrete all-success run. -/
theorem claim_C9_witness :
    (initExec [] : ExecState).running.length ≤ maxWorkers ∧
    (∃ pre, pre ++ (initExec [(⟨1, []⟩ : Task)]).queue = [(⟨1, []⟩ : Task)]) ∧
    ((([((2 : Nat), Event.quit)] : List (Nat × Event)).filter fun p => p.1 == 1) =
      ([] : List Event).map fun a => ((1 : Nat), a)) ∧
    (∃ pre u, runAutomationBackground oracleAllOk = pre ++ [Event.upd u] ∧
      (u.status = some "completed" ∨ u.status = some "failed")) := by
  have step1 : ExecStep 1 (initExec [⟨1, []⟩, ⟨2, [Event.quit]⟩])
      ⟨[⟨2, [Event.quit]⟩], [⟨1, []⟩], []⟩ :=
    ExecStep.start ⟨1, []⟩ [⟨2, [Event.quit]⟩] [] [] (by decide)
  have step2 : ExecStep 1 ⟨[⟨2, [Event.quit]⟩], [⟨1, []⟩], []⟩
      ⟨[⟨2, [Event.quit]⟩], [], []⟩ :=
    ExecStep.finish [⟨2, [Event.quit]⟩] [] [] 1 []
  have step3 : ExecStep 1 ⟨[⟨2, [Event.quit]⟩], [], []⟩
      ⟨[], [⟨2, [Event.quit]⟩], []⟩ :=
    ExecStep.start ⟨2, [Event.quit]⟩ [] [] [] (by decide)
  have step4 : ExecStep 1 ⟨[], [⟨2, [Event.quit]⟩], []⟩
      ⟨[], [⟨2, []⟩], [(2, Event.quit)]⟩ :=
    ExecStep.emit [] [] [] 2 Event.quit [] []
  have hreach : ExecReach 1 (initExec [⟨1, []⟩, ⟨2, [Event.quit]⟩])
      ⟨[], [⟨2, []⟩], [(2, Event.quit)]⟩ :=
    Relation.ReflTransGen.tail (Relation.ReflTransGen.tail
      (Relation.ReflTransGen.tail
        (Relation.ReflTransGen.tail Relation.ReflTransGen.refl step1) step2) step3)
      step4
  exact ⟨claim_C9.1 [] (initExec []) Relation.ReflTransGen.refl,
    claim_C9.2.1 1 [⟨1, []⟩] (initExec [⟨1, []⟩]) Relation.ReflTransGen.refl,
    claim_C9.2.2.1 [] [Event.quit] ⟨[], [⟨2, []⟩], [(2, Event.quit)]⟩ hreach
      Event.quit (by simp),
    claim_C9.2.2.2 oracleAllOk⟩

end AtlasStore
